import Mathlib

/-!
Verification development for the apollo MCP server (src/server.py, src/tools/).
The Python source is shallowly embedded: pure computations become Lean
functions, the per-request `contextvars.ContextVar` credential state becomes
explicit per-task state, and each tool's single outbound HTTP call is recorded
as an explicit request value so that "zero upstream calls" style properties
can be stated.  Braces inside string literals are written with \x7b / \x7d
escapes.
-/

/-- JSON values, the data carried in tool arguments, request parameters and
upstream response bodies.  `null` also models Python `None` (a JSON `null`
argument and an absent argument both surface as `None` through
`arguments.get`). -/
inductive Json where
  | null : Json
  | bool (b : Bool) : Json
  | num (n : Int) : Json
  | str (s : String) : Json
  | arr (elems : List Json) : Json
  | obj (fields : List (String × Json)) : Json

/-- Python truthiness (`if not x`) for the values that can appear in tool
arguments: `None`, `False`, `0`, `""`, `[]`, `\x7b\x7d` are falsy. -/
def pyTruthy : Json → Bool
  | .null => false
  | .bool b => b
  | .num n => n != 0
  | .str s => s != ""
  | .arr xs => !xs.isEmpty
  | .obj fs => !fs.isEmpty

/-- An invocation's argument mapping (Python `dict[str, Any]`). -/
abbrev Args := List (String × Json)

/-- `arguments.get(k)`: `None` (here `Json.null`) when the key is absent.
Note that a key present with value `null` and an absent key are
indistinguishable through `.get`. -/
def pyGet (args : Args) (k : String) : Json :=
  match args.lookup k with
  | some v => v
  | none => Json.null

/-- `k in arguments`: key membership, which does distinguish a key present
with value `null` from an absent key. -/
def pyContains (args : Args) (k : String) : Bool :=
  (args.lookup k).isSome

/-- Python `len` on the argument values it is applied to in the source. -/
def pyLen : Json → Nat
  | .arr xs => xs.length
  | .str s => s.length
  | .obj fs => fs.length
  | _ => 0

/-- `isinstance(x, list)`. -/
def pyIsList : Json → Bool
  | .arr _ => true
  | _ => false

/-- `auth_token or ""` where `auth_token : Optional[str]`: the header value
when present and non-empty, otherwise the empty string. -/
def pyOrEmpty : Option String → String
  | some s => if s == "" then "" else s
  | none => ""

/-! ### Python `str.split(".")` / `".".join(...)`, used by the enrichment tools -/

/-- Python `s.split(".")` on the character list of `s`: maximal (possibly
empty) runs between the dots; splitting the empty string gives `[""]`. -/
def splitDot : List Char → List (List Char)
  | [] => [[]]
  | c :: cs =>
    if c = '.' then [] :: splitDot cs
    else
      match splitDot cs with
      | [] => [[c]]
      | p :: ps => (c :: p) :: ps

/-- Python `".".join(parts)` on character lists. -/
def joinDot : List (List Char) → List Char
  | [] => []
  | p :: ps =>
    match ps with
    | [] => p
    | _ :: _ => p ++ '.' :: joinDot ps

/-- The `www`-stripping step of `apollo_organisation_enrichment` /
`apollo_bulk_organisation_enrichment` (src/tools/enrichment.py):
`parts = d.split("."); if parts[0] == "www": d = ".".join(parts[1:])`. -/
def stripWww (d : String) : String :=
  let parts := splitDot d.data
  if parts.head? = some ('w' :: 'w' :: 'w' :: []) then
    String.mk (joinDot parts.tail)
  else d

/-! ### `json.dumps(..., indent=2)` as used by the dispatcher -/

/-- Lower-case hex digit. -/
def hexDigit (n : Nat) : Char :=
  if n < 10 then Char.ofNat (48 + n) else Char.ofNat (87 + n)

/-- Four-digit hex rendering used by JSON `\uXXXX` escapes. -/
def hex4 (n : Nat) : String :=
  String.mk [hexDigit (n / 4096 % 16), hexDigit (n / 256 % 16),
             hexDigit (n / 16 % 16), hexDigit (n % 16)]

/-- How Python's `json.dumps` (default `ensure_ascii=True`) renders one
character inside a string literal.  Characters above the BMP, which would
need surrogate pairs, do not occur in any statement below. -/
def jsonEscapeChar (c : Char) : String :=
  if c = '"' then "\\\""
  else if c = '\\' then "\\\\"
  else if c = '\n' then "\\n"
  else if c = '\r' then "\\r"
  else if c = '\t' then "\\t"
  else if c.toNat = 8 then "\\b"
  else if c.toNat = 12 then "\\f"
  else if c.toNat < 32 || 126 < c.toNat then "\\u" ++ hex4 c.toNat
  else String.singleton c

/-- `json.dumps` of a string value. -/
def jsonDumpString (s : String) : String :=
  "\"" ++ String.join (s.data.map jsonEscapeChar) ++ "\""

mutual

/-- `json.dumps(v, indent=2)` at nesting prefix `ind`. -/
def pyJsonDumpsAt (ind : String) : Json → String
  | .null => "null"
  | .bool b => if b then "true" else "false"
  | .num n => toString n
  | .str s => jsonDumpString s
  | .arr xs =>
    if xs.isEmpty then "[]"
    else "[\n" ++ String.intercalate ",\n" (pyJsonDumpsArr (ind ++ "  ") xs)
      ++ "\n" ++ ind ++ "]"
  | .obj fs =>
    if fs.isEmpty then "\x7b\x7d"
    else "\x7b\n" ++ String.intercalate ",\n" (pyJsonDumpsObj (ind ++ "  ") fs)
      ++ "\n" ++ ind ++ "\x7d"

/-- Array elements, each on its own indented line. -/
def pyJsonDumpsArr (ind : String) : List Json → List String
  | [] => []
  | x :: xs => (ind ++ pyJsonDumpsAt ind x) :: pyJsonDumpsArr ind xs

/-- Object members, each on its own indented line. -/
def pyJsonDumpsObj (ind : String) : List (String × Json) → List String
  | [] => []
  | (k, v) :: fs =>
    (ind ++ jsonDumpString k ++ ": " ++ pyJsonDumpsAt ind v) :: pyJsonDumpsObj ind fs

end

/-- `json.dumps(v, indent=2)` (top level). -/
def pyJsonDumps (v : Json) : String := pyJsonDumpsAt "" v

/-! ### A small JSON reader (`json.loads`), evaluated only on concrete inputs -/

/-- Skip JSON whitespace. -/
def skipWs : List Char → List Char
  | c :: cs => if c = ' ' || c = '\n' || c = '\t' || c = '\r' then skipWs cs else c :: cs
  | [] => []

/-- Read the body of a JSON string literal (after the opening quote),
returning the decoded characters and the rest of the input. -/
def readStringBody (fuel : Nat) (cs : List Char) : Option (List Char × List Char) :=
  match fuel with
  | 0 => none
  | fuel + 1 =>
    match cs with
    | [] => none
    | '"' :: rest => some ([], rest)
    | '\\' :: e :: rest =>
      let dec : Option (Char × List Char) :=
        if e = '"' then some ('"', rest)
        else if e = '\\' then some ('\\', rest)
        else if e = '/' then some ('/', rest)
        else if e = 'n' then some ('\n', rest)
        else if e = 't' then some ('\t', rest)
        else if e = 'r' then some ('\r', rest)
        else if e = 'b' then some (Char.ofNat 8, rest)
        else if e = 'f' then some (Char.ofNat 12, rest)
        else none
      match dec with
      | some (c, rest) =>
        match readStringBody fuel rest with
        | some (tail, rem) => some (c :: tail, rem)
        | none => none
      | none => none
    | c :: rest =>
      match readStringBody fuel rest with
      | some (tail, rem) => some (c :: tail, rem)
      | none => none

/-- Read a run of decimal digits. -/
def readDigits : List Char → (List Char × List Char)
  | c :: cs =>
    if '0' ≤ c && c ≤ '9' then
      let (ds, rest) := readDigits cs
      (c :: ds, rest)
    else ([], c :: cs)
  | [] => ([], [])

/-- Digits to a natural number. -/
def digitsToNat : List Char → Nat
  | ds => ds.foldl (fun acc c => acc * 10 + (c.toNat - 48)) 0

mutual

/-- Read one JSON value (integers only among numbers, which covers every
body appearing in the statements below). -/
def readValue (fuel : Nat) (cs : List Char) : Option (Json × List Char) :=
  match fuel with
  | 0 => none
  | fuel + 1 =>
    match skipWs cs with
    | 'n' :: 'u' :: 'l' :: 'l' :: rest => some (.null, rest)
    | 't' :: 'r' :: 'u' :: 'e' :: rest => some (.bool true, rest)
    | 'f' :: 'a' :: 'l' :: 's' :: 'e' :: rest => some (.bool false, rest)
    | '"' :: rest =>
      match readStringBody fuel rest with
      | some (body, rem) => some (.str (String.mk body), rem)
      | none => none
    | '[' :: rest =>
      match skipWs rest with
      | ']' :: rem => some (.arr [], rem)
      | other =>
        match readElems fuel other with
        | some (xs, rem) => some (.arr xs, rem)
        | none => none
    | '\x7b' :: rest =>
      match skipWs rest with
      | '\x7d' :: rem => some (.obj [], rem)
      | other =>
        match readMembers fuel other with
        | some (fs, rem) => some (.obj fs, rem)
        | none => none
    | '-' :: rest =>
      match readDigits rest with
      | ([], _) => none
      | (ds, rem) => some (.num (-(Int.ofNat (digitsToNat ds))), rem)
    | c :: rest =>
      if '0' ≤ c && c ≤ '9' then
        match readDigits (c :: rest) with
        | ([], _) => none
        | (ds, rem) => some (.num (Int.ofNat (digitsToNat ds)), rem)
      else none
    | [] => none

/-- Read comma-separated array elements up to the closing bracket. -/
def readElems (fuel : Nat) (cs : List Char) : Option (List Json × List Char) :=
  match fuel with
  | 0 => none
  | fuel + 1 =>
    match readValue fuel cs with
    | none => none
    | some (v, rest) =>
      match skipWs rest with
      | ',' :: more =>
        match readElems fuel more with
        | some (xs, rem) => some (v :: xs, rem)
        | none => none
      | ']' :: rem => some ([v], rem)
      | _ => none

/-- Read comma-separated object members up to the closing brace. -/
def readMembers (fuel : Nat) (cs : List Char) : Option (List (String × Json) × List Char) :=
  match fuel with
  | 0 => none
  | fuel + 1 =>
    match skipWs cs with
    | '"' :: rest =>
      match readStringBody fuel rest with
      | none => none
      | some (key, afterKey) =>
        match skipWs afterKey with
        | ':' :: afterColon =>
          match readValue fuel afterColon with
          | none => none
          | some (v, rest2) =>
            match skipWs rest2 with
            | ',' :: more =>
              match readMembers fuel more with
              | some (fs, rem) => some ((String.mk key, v) :: fs, rem)
              | none => none
            | '\x7d' :: rem => some ([(String.mk key, v)], rem)
            | _ => none
        | _ => none
    | _ => none

end

/-- `json.loads`: parse a complete JSON document. -/
def jsonParse (s : String) : Option Json :=
  match readValue (s.data.length + 1) s.data with
  | some (v, rest) => if skipWs rest = [] then some v else none
  | none => none

/-! ### Credential resolver (src/tools/base.py)

The `contextvars.ContextVar` value visible to one request's task is modelled
as an `Option String` (`none` when the variable was never set in this task,
in which case `.get()` raises `LookupError`), and the process environment's
`APOLLO_API_KEY` as an `Option String` (`none` when unset; `os.getenv` of an
empty variable is falsy in the source's `if not token` checks). -/

/-- `get_auth_token` (src/tools/base.py lines 14-26): the context token when
set and non-empty, otherwise the environment fallback; `Except.error` models
the raised `RuntimeError` messages. -/
def get_auth_token (ctx : Option String) (env : Option String) : Except String String :=
  match ctx with
  | some token =>
    if token == "" then
      match env with
      | some t =>
        if t == "" then .error "No authentication token available" else .ok t
      | none => .error "No authentication token available"
    else .ok token
  | none =>
    match env with
    | some t =>
      if t == "" then .error "Authentication token not found in context or environment"
      else .ok t
    | none => .error "Authentication token not found in context or environment"

/-- The header dictionary built by `get_apollo_client`. -/
structure ApolloHeaders where
  accept : String
  cacheControl : String
  contentType : String
  xApiKey : String
deriving DecidableEq, Repr

/-- `get_apollo_client` (src/tools/base.py lines 28-46): on a resolution
failure the `RuntimeError` is caught, a warning is logged, and `None` is
returned. -/
def get_apollo_client (ctx : Option String) (env : Option String) : Option ApolloHeaders :=
  match get_auth_token ctx env with
  | .ok auth_token =>
    some { accept := "application/json", cacheControl := "no-cache",
           contentType := "application/json", xApiKey := auth_token }
  | .error _ => none

/-! ### Upstream call model

Each tool function issues at most one outbound HTTP request through `httpx`.
The upstream's behaviour for that single call is an input of the embedding,
and the list of attempted outbound requests is returned alongside the tool's
result so that call-counting properties can be stated. -/

/-- What the upstream does for the one call a tool attempts. -/
inductive UpstreamBehavior where
  | responds (status : Nat) (body : String)
  | netFail (msg : String)
deriving DecidableEq, Repr

/-- `httpx` raises `HTTPStatusError` from `raise_for_status()` exactly when
the status is not a 2xx success status. -/
def is2xx (status : Nat) : Bool := 200 ≤ status && status ≤ 299

/-- One attempted outbound HTTP request (method, url, headers as passed to
`httpx` — `none` models `headers=None` —, query params, JSON body). -/
structure HttpRequest where
  method : String
  url : String
  headers : Option ApolloHeaders
  params : List (String × Json)
  jsonBody : List (String × Json)

/-- A tool function's return value: the raw `response.text`, the parsed
`response.json()`, or an `\x7b"error": msg\x7d` dictionary. -/
inductive ToolResult where
  | text (s : String)
  | json (j : Json)
  | errorDict (msg : String)

/-- `Json` image of an optional string parameter (`None` becomes JSON null). -/
def jsonOfOptStr : Option String → Json
  | some s => .str s
  | none => .null

/-- Stands in for `str(e)` of the `json.JSONDecodeError` raised when
`response.json()` is applied to a non-JSON 2xx body; the exact library
message is not reproduced and no theorem depends on it. -/
def jsonDecodeFailureMsg (_body : String) : String := "response body is not valid JSON"

/-! ### Tool adapters (the per-tool `httpx` calls cited by the claims) -/

/-- `apollo_create_account` (src/tools/accounts.py lines 6-61).  Rejects the
call before any HTTP attempt when both `name` and `domain` are `None`;
otherwise POSTs the JSON body and, thanks to `raise_for_status`, maps a
non-2xx response to an `\x7b"error": "HTTP error status: body"\x7d` value and a
transport failure to `\x7b"error": "Request failed: ..."\x7d`. -/
def apollo_create_account (ctx env : Option String) (upstream : UpstreamBehavior)
    (name domain owner_id account_stage_id phone raw_address : Option String) :
    ToolResult × List HttpRequest :=
  if name = none ∧ domain = none then
    (.errorDict "Either name or domain must be provided", [])
  else
    let url := "https://api.apollo.io/api/v1/accounts"
    let data := [("name", jsonOfOptStr name), ("domain", jsonOfOptStr domain),
                 ("owner_id", jsonOfOptStr owner_id),
                 ("account_stage_id", jsonOfOptStr account_stage_id),
                 ("phone", jsonOfOptStr phone),
                 ("raw_address", jsonOfOptStr raw_address)]
    let headers := get_apollo_client ctx env
    let req : HttpRequest :=
      { method := "POST", url := url, headers := headers, params := [], jsonBody := data }
    match upstream with
    | .responds status body =>
      if is2xx status then
        match jsonParse body with
        | some j => (.json j, [req])
        | none => (.errorDict ("Unexpected error: " ++ jsonDecodeFailureMsg body), [req])
      else
        (.errorDict ("HTTP error " ++ toString status ++ ": " ++ body), [req])
    | .netFail msg => (.errorDict ("Request failed: " ++ msg), [req])

/-- `apollo_view_account` (src/tools/accounts.py lines 177-201).  There is no
`raise_for_status` call: the raw `response.text` is returned for every
status, and the single `except Exception` clause collapses any failure into
`\x7b"error": str(e)\x7d`. -/
def apollo_view_account (ctx env : Option String) (upstream : UpstreamBehavior)
    (account_id : String) : ToolResult × List HttpRequest :=
  let url := "https://api.apollo.io/api/v1/accounts/" ++ account_id
  let headers := get_apollo_client ctx env
  let req : HttpRequest :=
    { method := "GET", url := url, headers := headers, params := [], jsonBody := [] }
  match upstream with
  | .responds _status body => (.text body, [req])
  | .netFail msg => (.errorDict msg, [req])

/-- `apollo_update_account_stage_bulk` (src/tools/accounts.py lines 203-237).
Like `apollo_view_account`, no `raise_for_status`: the raw body is returned
for every status. -/
def apollo_update_account_stage_bulk (ctx env : Option String)
    (upstream : UpstreamBehavior) (account_ids account_stage_id : Json) :
    ToolResult × List HttpRequest :=
  let url := "https://api.apollo.io/api/v1/accounts/bulk_update"
  let params := [("account_ids[]", account_ids), ("account_stage_id", account_stage_id)]
  let headers := get_apollo_client ctx env
  let req : HttpRequest :=
    { method := "POST", url := url, headers := headers, params := params, jsonBody := [] }
  match upstream with
  | .responds _status body => (.text body, [req])
  | .netFail msg => (.errorDict msg, [req])

/-- `apollo_organisation_enrichment` (src/tools/enrichment.py lines 5-35).
Strips a leading `www` label, then GETs with the resolved headers — the call
is attempted even when `get_apollo_client` returned `None`. -/
def apollo_organisation_enrichment (ctx env : Option String)
    (upstream : UpstreamBehavior) (domain : String) : ToolResult × List HttpRequest :=
  let url := "https://api.apollo.io/api/v1/organizations/enrich"
  let domain := stripWww domain
  let params := [("domain", Json.str domain)]
  let headers := get_apollo_client ctx env
  let req : HttpRequest :=
    { method := "GET", url := url, headers := headers, params := params, jsonBody := [] }
  match upstream with
  | .responds status body =>
    if is2xx status then (.text body, [req])
    else (.errorDict ("HTTP error " ++ toString status ++ ": " ++ body), [req])
  | .netFail msg => (.errorDict ("Request failed: " ++ msg), [req])

/-- `apollo_bulk_organisation_enrichment` (src/tools/enrichment.py lines
38-81).  The `new_domains` loop maps `stripWww` over the input list; the
list-valued parameter is passed to `httpx` under the key `domains[]`. -/
def apollo_bulk_organisation_enrichment (ctx env : Option String)
    (upstream : UpstreamBehavior) (domains : List String) : ToolResult × List HttpRequest :=
  let url := "https://api.apollo.io/api/v1/organizations/bulk_enrich"
  let new_domains := domains.map stripWww
  let headers := get_apollo_client ctx env
  let params := [("domains[]", Json.arr (new_domains.map Json.str))]
  let req : HttpRequest :=
    { method := "POST", url := url, headers := headers, params := params, jsonBody := [] }
  match upstream with
  | .responds status body =>
    if is2xx status then (.text body, [req])
    else (.errorDict ("HTTP error " ++ toString status ++ ": " ++ body), [req])
  | .netFail msg => (.errorDict ("Request failed: " ++ msg), [req])

/-- `apollo_create_tasks` (src/tools/tasks.py lines 4-66).  The parameters
are forwarded as given (`None` values included); `note` is only added when
truthy. -/
def apollo_create_tasks (ctx env : Option String) (upstream : UpstreamBehavior)
    (user_id contact_ids priority due_at task_type status note : Json) :
    ToolResult × List HttpRequest :=
  let url := "https://api.apollo.io/api/v1/tasks/bulk_create"
  let headers := get_apollo_client ctx env
  let params := [("user_id", user_id), ("contact_ids[]", contact_ids),
                 ("priority", priority), ("due_at", due_at),
                 ("type", task_type), ("status", status)]
  let params := if pyTruthy note then params ++ [("note", note)] else params
  let req : HttpRequest :=
    { method := "POST", url := url, headers := headers, params := params, jsonBody := [] }
  match upstream with
  | .responds st body =>
    if is2xx st then (.text body, [req])
    else (.errorDict ("HTTP error " ++ toString st ++ ": " ++ body), [req])
  | .netFail msg => (.errorDict ("Request failed: " ++ msg), [req])

/-! ### Dispatcher (src/server.py, `call_tool`, lines 1264-2293)

Each branch is `try: result = await tool(...); return [TextContent(...)]
except Exception as e: return [TextContent(text=f"Error: ...")]` after its
validation check.  The adapter invocation is abstracted by an outcome oracle
`String → AdapterOutcome`, so the dispatcher embedding covers every branch
while the individual theorems instantiate the oracle with the embedded tool
functions where the claim needs the real adapter.  The second component of
the result records which tool function was invoked (empty when validation
rejected the call, so no upstream HTTP call can have been made). -/

/-- `types.TextContent(type="text", text=...)`; the constant `type` field is
omitted. -/
structure TextContent where
  text : String
deriving DecidableEq, Repr

/-- What `await tool(...)` did: returned a value or raised. -/
inductive AdapterOutcome where
  | value (r : ToolResult)
  | raises (msg : String)

/-- Dispatcher output: the returned content list (`none` models the Python
function falling through every branch and returning `None`), together with
the names of the tool functions that were invoked. -/
abbrev DispatchResult := Option (List TextContent) × List String

/-- A validation rejection: one `TextContent`, no tool invocation. -/
def rejectWith (msg : String) : DispatchResult := (some [⟨msg⟩], [])

/-- Stands in for `str` of the pydantic `ValidationError` raised when a
branch passes a non-string result to `TextContent(text=...)`; the exact
library message is not reproduced and no theorem depends on it. -/
def textContentCoercionError (_r : ToolResult) : String :=
  "validation error for TextContent"

/-- The JSON value `json.dumps` receives for a tool result. -/
def toolResultJson : ToolResult → Json
  | .text s => .str s
  | .json j => j
  | .errorDict m => .obj [("error", .str m)]

/-- A branch of the form `text=result` (no `json.dumps`): a string result is
passed through verbatim; a non-string result makes the `TextContent`
constructor raise inside the `try`, which the `except` turns into an
`"Error: ..."` payload. -/
def runPlain (o : String → AdapterOutcome) (tool : String) : DispatchResult :=
  match o tool with
  | .value (.text s) => (some [⟨s⟩], [tool])
  | .value (.json (.str s)) => (some [⟨s⟩], [tool])
  | .value r => (some [⟨"Error: " ++ textContentCoercionError r⟩], [tool])
  | .raises m => (some [⟨"Error: " ++ m⟩], [tool])

/-- A branch of the form `text=json.dumps(result, indent=2)`. -/
def runDumps (o : String → AdapterOutcome) (tool : String) : DispatchResult :=
  match o tool with
  | .value r => (some [⟨pyJsonDumps (toolResultJson r)⟩], [tool])
  | .raises m => (some [⟨"Error: " ++ m⟩], [tool])

/-- `x is None`. -/
def pyIsNone : Json → Bool
  | .null => true
  | _ => false

/-- Required-parameter list of the `apollo_create_tasks` branch. -/
def createTasksRequiredParams : List String :=
  ["user_id", "contact_ids", "priority", "due_at", "task_type", "status"]

/-- Required-parameter list of the `apollo_add_contacts_to_sequence` branch. -/
def addContactsRequiredParams : List String :=
  ["sequence_id", "emailer_campaign_id", "contact_ids", "send_email_from_email_account_id"]

/-- Required-parameter list of the `apollo_update_contact_status_in_sequence`
branch. -/
def updateContactStatusRequiredParams : List String :=
  ["emailer_campaign_ids", "contact_ids", "mode"]

/-- `all(param in arguments for param in required_params)`: key membership
only — a parameter present with value `null` counts as present. -/
def requiredAllPresent (args : Args) (ps : List String) : Bool :=
  ps.all (fun p => pyContains args p)

/-- The rejection text of the membership-checked branches. -/
def missingRequiredMsg (ps : List String) : String :=
  "Missing required parameters. Required: " ++ String.intercalate ", " ps ++ "."

/-- The dispatcher `call_tool` (src/server.py lines 1264-2293): the literal
`if name == ... / elif ...` chain; an unmatched name falls through every
branch and the Python function returns `None`. -/
def call_tool (o : String → AdapterOutcome) (name : String) (args : Args) : DispatchResult :=
  if name = "apollo_create_account" then
    runPlain o name
  else if name = "apollo_update_account" then
    if !pyTruthy (pyGet args "account_id") then
      rejectWith "Missing required parameter: account_id."
    else runPlain o name
  else if name = "apollo_search_accounts" then
    runDumps o name
  else if name = "apollo_view_account" then
    if !pyTruthy (pyGet args "account_id") then
      rejectWith "Missing required parameter: account_id."
    else runDumps o name
  else if name = "apollo_update_account_stage_bulk" then
    if !pyTruthy (pyGet args "account_ids") || !pyTruthy (pyGet args "account_stage_id") then
      rejectWith "Missing required parameters: account_ids, account_stage_id."
    else runPlain o name
  else if name = "apollo_update_account_owner_bulk" then
    if !pyTruthy (pyGet args "account_ids") || !pyTruthy (pyGet args "owner_id") then
      rejectWith "Missing required parameters: account_ids, owner_id."
    else runPlain o name
  else if name = "apollo_list_account_stages" then
    runDumps o name
  else if name = "apollo_create_call_record" then
    if pyIsNone (pyGet args "logged") || !pyTruthy (pyGet args "user_ids")
        || !pyTruthy (pyGet args "contact_id") then
      rejectWith "Missing required parameters: logged, user_ids, contact_id."
    else runPlain o name
  else if name = "apollo_search_calls" then
    runDumps o name
  else if name = "apollo_update_call" then
    if !pyTruthy (pyGet args "call_id") then
      rejectWith "Missing required parameter: call_id."
    else runPlain o name
  else if name = "apollo_create_contact" then
    runPlain o name
  else if name = "apollo_update_contact" then
    if !pyTruthy (pyGet args "contact_id") then
      rejectWith "Missing required parameter: contact_id."
    else runPlain o name
  else if name = "apollo_search_contacts" then
    runDumps o name
  else if name = "apollo_update_contact_stages" then
    if !pyTruthy (pyGet args "contact_ids") || !pyTruthy (pyGet args "contact_stage_id") then
      rejectWith "Missing required parameters: contact_ids, contact_stage_id."
    else runPlain o name
  else if name = "apollo_update_contact_owners" then
    if !pyTruthy (pyGet args "contact_ids") || !pyTruthy (pyGet args "owner_id") then
      rejectWith "Missing required parameters: contact_ids, owner_id."
    else runPlain o name
  else if name = "apollo_list_contact_stages" then
    runDumps o name
  else if name = "apollo_create_deal" then
    if !pyTruthy (pyGet args "name") then
      rejectWith "Missing required parameter: name."
    else runPlain o name
  else if name = "apollo_list_all_deals" then
    runDumps o name
  else if name = "apollo_view_deal" then
    if !pyTruthy (pyGet args "opportunity_id") then
      rejectWith "Missing required parameter: opportunity_id."
    else runDumps o name
  else if name = "apollo_update_deal" then
    if !pyTruthy (pyGet args "opportunity_id") then
      rejectWith "Missing required parameter: opportunity_id."
    else runPlain o name
  else if name = "apollo_list_deal_stages" then
    runDumps o name
  else if name = "apollo_organisation_enrichment" then
    if !pyTruthy (pyGet args "domain") then
      rejectWith "Missing required parameter: domain."
    else runDumps o name
  else if name = "apollo_bulk_organisation_enrichment" then
    if !pyTruthy (pyGet args "domains") || !pyIsList (pyGet args "domains")
        || pyLen (pyGet args "domains") == 0 then
      rejectWith "Missing or invalid required parameter: domains."
    else runDumps o name
  else if name = "apollo_view_api_usage_stats" then
    runDumps o name
  else if name = "apollo_list_users" then
    runDumps o name
  else if name = "apollo_list_email_accounts" then
    runDumps o name
  else if name = "apollo_get_all_lists_and_tags" then
    runDumps o name
  else if name = "apollo_list_all_custom_fields" then
    runDumps o name
  else if name = "apollo_organization_job_postings" then
    if !pyTruthy (pyGet args "organization_id") then
      rejectWith "Missing required parameter: organization_id."
    else runDumps o name
  else if name = "apollo_news_articles_search" then
    if !pyTruthy (pyGet args "organization_ids") || !pyIsList (pyGet args "organization_ids")
        || pyLen (pyGet args "organization_ids") == 0 then
      rejectWith "Missing or invalid required parameter: organization_ids."
    else runDumps o name
  else if name = "apollo_search_sequences" then
    runDumps o name
  else if name = "apollo_add_contacts_to_sequence" then
    if !requiredAllPresent args addContactsRequiredParams then
      rejectWith (missingRequiredMsg addContactsRequiredParams)
    else runDumps o name
  else if name = "apollo_update_contact_status_in_sequence" then
    if !requiredAllPresent args updateContactStatusRequiredParams then
      rejectWith (missingRequiredMsg updateContactStatusRequiredParams)
    else runDumps o name
  else if name = "apollo_search_outreach_emails" then
    runDumps o name
  else if name = "apollo_check_email_stats" then
    if !pyTruthy (pyGet args "email_id") then
      rejectWith "Missing required parameter: email_id."
    else runDumps o name
  else if name = "apollo_create_tasks" then
    if !requiredAllPresent args createTasksRequiredParams then
      rejectWith (missingRequiredMsg createTasksRequiredParams)
    else runDumps o name
  else if name = "apollo_search_tasks" then
    runDumps o name
  else
    (none, [])

/-- The tool names `call_tool` recognises, in branch order. -/
def registeredToolNames : List String :=
  ["apollo_create_account", "apollo_update_account", "apollo_search_accounts",
   "apollo_view_account", "apollo_update_account_stage_bulk",
   "apollo_update_account_owner_bulk", "apollo_list_account_stages",
   "apollo_create_call_record", "apollo_search_calls", "apollo_update_call",
   "apollo_create_contact", "apollo_update_contact", "apollo_search_contacts",
   "apollo_update_contact_stages", "apollo_update_contact_owners",
   "apollo_list_contact_stages", "apollo_create_deal", "apollo_list_all_deals",
   "apollo_view_deal", "apollo_update_deal", "apollo_list_deal_stages",
   "apollo_organisation_enrichment", "apollo_bulk_organisation_enrichment",
   "apollo_view_api_usage_stats", "apollo_list_users",
   "apollo_list_email_accounts", "apollo_get_all_lists_and_tags",
   "apollo_list_all_custom_fields", "apollo_organization_job_postings",
   "apollo_news_articles_search", "apollo_search_sequences",
   "apollo_add_contacts_to_sequence", "apollo_update_contact_status_in_sequence",
   "apollo_search_outreach_emails", "apollo_check_email_stats",
   "apollo_create_tasks", "apollo_search_tasks"]

/-- `required` list of the published `apollo_create_account` input schema in
`list_tools` (src/server.py lines 121-154): no parameter is declared
required. -/
def createAccountSchemaRequired : List String := []

/-! ### Transport layer (src/server.py, `handle_sse` lines 2300-2318 and
`handle_streamable_http` lines 2328-2344)

Only the effect on this request task's `auth_token_context` slot is
modelled: the slot is an `Option String` (`none` = never set in this task).
`ContextVar.set` returns a token capturing the prior value and
`ContextVar.reset(token)` restores exactly that captured value; the `reset`
sits in a `finally`, so it runs on a normal return, a raised exception and a
cancellation alike. -/

/-- How the request body finished. -/
inductive BodyOutcome where
  | normal : BodyOutcome
  | exn (msg : String) : BodyOutcome
  | cancelled : BodyOutcome
deriving DecidableEq, Repr

/-- Python `try: body finally: fin`: the `finally` block runs whatever the
body's outcome was, and the outcome (return / exception / cancellation) is
then propagated. -/
def pyTryFinally {σ : Type} (body : σ → σ × BodyOutcome) (fin : σ → σ) (s : σ) :
    σ × BodyOutcome :=
  let r := body s
  (fin r.1, r.2)

/-- `request.headers.get('x-auth-token')` in `handle_sse`. -/
def sseAuthToken (headers : List (String × String)) : Option String :=
  headers.lookup "x-auth-token"

/-- The value `handle_sse` stores in the credential context:
`auth_token or ""`. -/
def sseContextValue (headers : List (String × String)) : String :=
  pyOrEmpty (sseAuthToken headers)

/-- `handle_sse`: capture the prior context value in the `set` token, run the
connection body with the context holding the header token (or `""`), and
reset in a `finally`.  The body receives the context slot and may finish
normally, with an exception, or cancelled. -/
def handle_sse (prior : Option String) (headers : List (String × String))
    (body : Option String → Option String × BodyOutcome) :
    Option String × BodyOutcome :=
  let token := prior
  pyTryFinally body (fun _ => token) (some (sseContextValue headers))

/-- `dict(scope.get("headers", [])).get(b'x-auth-token')` followed by the
UTF-8 decode in `handle_streamable_http`; the byte strings of the ASGI scope
are modelled by their decoded text. -/
def streamableAuthToken (headers : List (String × String)) : Option String :=
  headers.lookup "x-auth-token"

/-- `handle_streamable_http`: identical scoped-acquisition shape around
`session_manager.handle_request`. -/
def handle_streamable_http (prior : Option String) (headers : List (String × String))
    (body : Option String → Option String × BodyOutcome) :
    Option String × BodyOutcome :=
  let token := prior
  pyTryFinally body (fun _ => token) (some (pyOrEmpty (streamableAuthToken headers)))

/-! ### Two concurrent requests (claim C1)

Starlette runs every inbound request handler in its own asyncio task, and a
`ContextVar` read or written inside a task touches only that task's context.
The state therefore carries one `auth_token_context` slot per request task.
Each request executes three steps, mirroring `handle_sse` /
`handle_streamable_http` around a tool call:
step 0 `token = auth_token_context.set(header or "")`,
step 1 the tool call's `get_auth_token()` (the value the upstream call
adapter would put in `x-api-key`), step 2 `auth_token_context.reset(token)`.
An arbitrary interleaving of the two tasks is a list of task ids. -/

/-- One request task: program counter, the `set` token (captured prior
value), and the credential its tool call observed. -/
structure ReqTask where
  pc : Nat
  savedTok : Option String
  observed : Option (Except String String)

/-- The two tasks' contextvar slots and control state.  `h` gives each
request's `x-auth-token` header. -/
structure ConcState where
  ctx : Bool → Option String
  tasks : Bool → ReqTask

/-- Both requests not yet started, both context slots never set. -/
def concInit : ConcState :=
  { ctx := fun _ => none,
    tasks := fun _ => { pc := 0, savedTok := none, observed := none } }

/-- One step of request task `i`. -/
def stepReq (h : Bool → Option String) (env : Option String) (s : ConcState)
    (i : Bool) : ConcState :=
  match (s.tasks i).pc with
  | 0 =>
    { ctx := fun j => if j = i then some (pyOrEmpty (h i)) else s.ctx j,
      tasks := fun j => if j = i then
          { pc := 1, savedTok := s.ctx i, observed := (s.tasks i).observed }
        else s.tasks j }
  | 1 =>
    { ctx := s.ctx,
      tasks := fun j => if j = i then
          { s.tasks i with pc := 2, observed := some (get_auth_token (s.ctx i) env) }
        else s.tasks j }
  | 2 =>
    { ctx := fun j => if j = i then (s.tasks i).savedTok else s.ctx j,
      tasks := fun j => if j = i then { s.tasks i with pc := 3 } else s.tasks j }
  | _ => s

/-- Run an interleaving of the two request tasks. -/
def runRequests (h : Bool → Option String) (env : Option String)
    (sched : List Bool) : ConcState :=
  sched.foldl (fun s i => stepReq h env s i) concInit

/-- The per-task invariant: each task's slot and observation depend only on
its own header (and the environment fallback). -/
def concInv (h : Bool → Option String) (env : Option String) (s : ConcState) : Prop :=
  ∀ i : Bool,
    ((s.tasks i).pc = 0 ∧ s.ctx i = none ∧ (s.tasks i).observed = none)
    ∨ ((s.tasks i).pc = 1 ∧ s.ctx i = some (pyOrEmpty (h i))
        ∧ (s.tasks i).observed = none)
    ∨ ((s.tasks i).pc = 2 ∧ s.ctx i = some (pyOrEmpty (h i))
        ∧ (s.tasks i).observed = some (get_auth_token (some (pyOrEmpty (h i))) env))
    ∨ (3 ≤ (s.tasks i).pc
        ∧ (s.tasks i).observed = some (get_auth_token (some (pyOrEmpty (h i))) env))

/-! ### Shared lemmas -/

/-- `str.split` never returns an empty list. -/
theorem splitDot_ne_nil (cs : List Char) : splitDot cs ≠ [] := by
  cases cs with
  | nil => simp [splitDot]
  | cons c cs =>
    unfold splitDot
    split
    · simp
    · split <;> simp

/-- Unfolding `joinDot` on a list with at least two parts. -/
theorem joinDot_cons (p : List Char) (ps : List (List Char)) (h : ps ≠ []) :
    joinDot (p :: ps) = p ++ '.' :: joinDot ps := by
  cases ps with
  | nil => exact absurd rfl h
  | cons q qs => rfl

/-- `".".join(s.split("."))` is the identity. -/
theorem joinDot_splitDot (cs : List Char) : joinDot (splitDot cs) = cs := by
  induction cs with
  | nil => rfl
  | cons c cs ih =>
    unfold splitDot
    by_cases hc : c = '.'
    · rw [if_pos hc, joinDot_cons _ _ (splitDot_ne_nil cs), ih, hc]
      rfl
    · rw [if_neg hc]
      rcases hsp : splitDot cs with _ | ⟨p, ps⟩
      · exact absurd hsp (splitDot_ne_nil cs)
      · rw [hsp] at ih
        cases ps with
        | nil =>
          simp only [joinDot] at ih ⊢
          rw [ih]
        | cons q qs =>
          rw [joinDot_cons _ _ (by simp)] at ih
          rw [joinDot_cons _ _ (by simp), List.cons_append, ih]

/-- Splitting a string that starts with the label `www`. -/
theorem splitDot_www (r : List Char) :
    splitDot ('w' :: 'w' :: 'w' :: '.' :: r) = ('w' :: 'w' :: 'w' :: []) :: splitDot r := rfl

/-- Stripping the `www.` prefix. -/
theorem stripWww_www_append (s : String) : stripWww ("www." ++ s) = s := by
  obtain ⟨data⟩ := s
  have h1 : stripWww ("www." ++ String.mk data) = String.mk (joinDot (splitDot data)) := rfl
  rw [h1, joinDot_splitDot]

/-- A domain whose first dot-separated label is not `www` passes through. -/
theorem stripWww_of_not_www (d : String)
    (h : (splitDot d.data).head? ≠ some ('w' :: 'w' :: 'w' :: [])) : stripWww d = d := by
  unfold stripWww
  rw [if_neg h]

/-- A `text=result` branch always invokes its tool function. -/
theorem runPlain_snd (o : String → AdapterOutcome) (t : String) :
    (runPlain o t).2 = [t] := by
  unfold runPlain; split <;> rfl

/-- A `json.dumps` branch always invokes its tool function. -/
theorem runDumps_snd (o : String → AdapterOutcome) (t : String) :
    (runDumps o t).2 = [t] := by
  unfold runDumps; split <;> rfl

/-- A `text=result` branch returns exactly one content item. -/
theorem runPlain_fst (o : String → AdapterOutcome) (t : String) :
    ∃ c, (runPlain o t).1 = some [c] := by
  unfold runPlain; split <;> exact ⟨_, rfl⟩

/-- A `json.dumps` branch returns exactly one content item. -/
theorem runDumps_fst (o : String → AdapterOutcome) (t : String) :
    ∃ c, (runDumps o t).1 = some [c] := by
  unfold runDumps; split <;> exact ⟨_, rfl⟩

/-- A finished task is not changed by further steps. -/
theorem stepReq_done (h : Bool → Option String) (env : Option String) (s : ConcState)
    (i : Bool) (hpc : 3 ≤ (s.tasks i).pc) : stepReq h env s i = s := by
  unfold stepReq
  split <;> first | rfl | omega

/-- The per-task invariant is preserved by every step of either task. -/
theorem concInv_step (h : Bool → Option String) (env : Option String) (s : ConcState)
    (hs : concInv h env s) (i : Bool) : concInv h env (stepReq h env s i) := by
  rcases hs i with ⟨hpc, hctx, hobs⟩ | ⟨hpc, hctx, hobs⟩ | ⟨hpc, hctx, hobs⟩ | ⟨hpc, hobs⟩
  · intro j
    by_cases hji : j = i
    · subst hji
      right; left
      simp [stepReq, hpc, hobs]
    · simpa [stepReq, hpc, hji] using hs j
  · intro j
    by_cases hji : j = i
    · subst hji
      right; right; left
      simp [stepReq, hpc, hctx, hobs]
    · simpa [stepReq, hpc, hji] using hs j
  · intro j
    by_cases hji : j = i
    · subst hji
      right; right; right
      simp [stepReq, hpc, hobs]
    · simpa [stepReq, hpc, hji] using hs j
  · rw [stepReq_done h env s i hpc]
    exact hs

/-- Any interleaving of the two request tasks keeps the invariant. -/
theorem concInv_run (h : Bool → Option String) (env : Option String) (sched : List Bool) :
    concInv h env (runRequests h env sched) := by
  suffices H : ∀ (sc : List Bool) (s : ConcState), concInv h env s →
      concInv h env (sc.foldl (fun s i => stepReq h env s i) s) by
    exact H sched concInit (fun i => Or.inl ⟨rfl, rfl, rfl⟩)
  intro sc
  induction sc with
  | nil => intro s hs; exact hs
  | cons i rest ih => intro s hs; exact ih _ (concInv_step h env s hs i)

/-! ### Claim theorems -/

/-- C1: in any interleaving of two concurrent requests, once a request's
tool call has performed its credential read, the value it observed (and
hands to the upstream call adapter) is determined solely by that request's
own `x-auth-token` header and the process-wide fallback; in particular a
request carrying the non-empty token `t` always observes `t` itself, never
the other request's token. -/
theorem c1_credential_isolation (h : Bool → Option String) (env : Option String)
    (sched : List Bool) (i : Bool)
    (hread : 2 ≤ ((runRequests h env sched).tasks i).pc) :
    ((runRequests h env sched).tasks i).observed
      = some (get_auth_token (some (pyOrEmpty (h i))) env)
    ∧ (∀ t : String, h i = some t → t ≠ "" →
        ((runRequests h env sched).tasks i).observed = some (Except.ok t)) := by
  have hinv := concInv_run h env sched i
  have hobs : ((runRequests h env sched).tasks i).observed
      = some (get_auth_token (some (pyOrEmpty (h i))) env) := by
    rcases hinv with ⟨hpc, _, _⟩ | ⟨hpc, _, _⟩ | ⟨_, _, ho⟩ | ⟨_, ho⟩
    · omega
    · omega
    · exact ho
    · exact ho
  refine ⟨hobs, ?_⟩
  intro t ht hne
  rw [hobs, ht]
  have h1 : pyOrEmpty (some t) = t := by simp [pyOrEmpty, hne]
  rw [h1]
  simp [get_auth_token, hne]

/-- Witness for C1: a concrete interleaving of two requests carrying the
distinct tokens `tokenA` and `tokenB`. -/
theorem c1_credential_isolation_witness :
    2 ≤ ((runRequests (fun b => if b then some "tokenB" else some "tokenA") none
          [false, true, false, true, false, true]).tasks false).pc
    ∧ ((runRequests (fun b => if b then some "tokenB" else some "tokenA") none
          [false, true, false, true, false, true]).tasks false).observed
        = some (Except.ok "tokenA") := by
  refine ⟨by decide, ?_⟩
  exact (c1_credential_isolation (fun b => if b then some "tokenB" else some "tokenA") none
      [false, true, false, true, false, true] false (by decide)).2 "tokenA" rfl (by decide)

/-- C2: on both transports the credential context is reset to the prior
value on every exit path of the request body — normal completion, exception
and cancellation alike — and the body's outcome is then propagated; the
body runs with the context holding the header-derived value. -/
theorem c2_scoped_teardown (prior : Option String) (headers : List (String × String))
    (body : Option String → Option String × BodyOutcome) :
    (handle_sse prior headers body).1 = prior
    ∧ (handle_streamable_http prior headers body).1 = prior
    ∧ (handle_sse prior headers body).2 = (body (some (sseContextValue headers))).2
    ∧ (handle_streamable_http prior headers body).2
        = (body (some (pyOrEmpty (streamableAuthToken headers)))).2 :=
  ⟨rfl, rfl, rfl, rfl⟩

/-- C9: an absent `x-auth-token` header makes `handle_sse` set the
credential context to the empty string, and `get_auth_token` then resolves
an empty per-request token to the environment fallback, exactly as it
resolves a never-set context. -/
theorem c9_absent_header_fallback (prior : Option String)
    (body : Option String → Option String × BodyOutcome)
    (env : Option String) (k : String) (headers : List (String × String))
    (henv : env = some k) (hk : k ≠ "")
    (habsent : headers.lookup "x-auth-token" = none) :
    sseContextValue headers = ""
    ∧ handle_sse prior headers body = pyTryFinally body (fun _ => prior) (some "")
    ∧ get_auth_token (some "") env = Except.ok k
    ∧ get_auth_token (some "") env = get_auth_token none env := by
  subst henv
  have h1 : sseContextValue headers = "" := by
    simp [sseContextValue, sseAuthToken, habsent, pyOrEmpty]
  refine ⟨h1, ?_, ?_, ?_⟩
  · rw [handle_sse, h1]
  · simp [get_auth_token, hk]
  · simp [get_auth_token, hk]

/-- Witness for C9: no header entries at all, fallback credential
`envtoken`. -/
theorem c9_absent_header_fallback_witness :
    sseContextValue [] = ""
    ∧ handle_sse none [] (fun s => (s, BodyOutcome.normal))
        = pyTryFinally (fun s => (s, BodyOutcome.normal)) (fun _ => none) (some "")
    ∧ get_auth_token (some "") (some "envtoken") = Except.ok "envtoken"
    ∧ get_auth_token (some "") (some "envtoken") = get_auth_token none (some "envtoken") :=
  c9_absent_header_fallback none (fun s => (s, BodyOutcome.normal)) (some "envtoken")
    "envtoken" [] rfl (by decide) rfl

/-- C10: the published `apollo_create_account` schema requires no
parameter, yet calling the tool function with both `name` and `domain`
unset returns the `Either name or domain must be provided` error value
before any upstream HTTP call is attempted. -/
theorem c10_create_account_hidden_precondition (ctx env : Option String)
    (upstream : UpstreamBehavior) :
    createAccountSchemaRequired = []
    ∧ apollo_create_account ctx env upstream none none none none none none
        = (ToolResult.errorDict "Either name or domain must be provided", []) :=
  ⟨rfl, rfl⟩

/-- C3 counterexample: with an empty per-request token and no environment
fallback, credential resolution fails, yet `apollo_organisation_enrichment`
still attempts exactly one upstream HTTP call (with `headers=None`), and
what the caller gets back is the upstream HTTP error — not a
resolution-failure report. -/
theorem c3_counterexample :
    (apollo_organisation_enrichment (some "") none
        (.responds 401 "unauthorised") "apollo.io").2.length = 1
    ∧ get_apollo_client (some "") none = none
    ∧ (apollo_organisation_enrichment (some "") none
        (.responds 401 "unauthorised") "apollo.io").1
        = ToolResult.errorDict "HTTP error 401: unauthorised" :=
  ⟨rfl, rfl, rfl⟩

/-- C3 (amended): when neither a per-request nor a fallback credential
exists, `get_apollo_client` swallows the resolution failure and returns
`None`; the tool then still issues its single upstream HTTP call, with no
authentication headers at all — the call is *not* skipped and no separate
resolution-failure payload is produced. -/
theorem c3_amended_no_credential_still_calls (ctx env : Option String)
    (domain : String) (upstream : UpstreamBehavior)
    (hc : ctx = none ∨ ctx = some "") (he : env = none ∨ env = some "") :
    get_apollo_client ctx env = none
    ∧ (apollo_organisation_enrichment ctx env upstream domain).2.map HttpRequest.headers
        = [none]
    ∧ (apollo_organisation_enrichment ctx env upstream domain).2.length = 1 := by
  have hg : get_apollo_client ctx env = none := by
    rcases hc with rfl | rfl <;> rcases he with rfl | rfl <;> rfl
  refine ⟨hg, ?_, ?_⟩
  · cases upstream with
    | responds st body =>
      simp only [apollo_organisation_enrichment, hg]
      split <;> rfl
    | netFail m =>
      simp [apollo_organisation_enrichment, hg]
  · cases upstream with
    | responds st body =>
      simp only [apollo_organisation_enrichment]
      split <;> rfl
    | netFail m => rfl

/-- Witness for C3 (amended). -/
theorem c3_amended_no_credential_still_calls_witness :
    get_apollo_client none (some "") = none
    ∧ (apollo_organisation_enrichment none (some "")
        (.netFail "dns failure") "foo.com").2.map HttpRequest.headers = [none]
    ∧ (apollo_organisation_enrichment none (some "")
        (.netFail "dns failure") "foo.com").2.length = 1 :=
  c3_amended_no_credential_still_calls none (some "") "foo.com" (.netFail "dns failure")
    (Or.inl rfl) (Or.inr rfl)

/-- C6 counterexample: `apollo_view_account` against a 403 upstream with
body `\x7b"error":"forbidden"\x7d` returns the raw body as a *success* value
(`response.text`, no `raise_for_status` in this tool), not a structured
error carrying the status code. -/
theorem c6_counterexample :
    (apollo_view_account (some "key") none
        (.responds 403 "\x7b\"error\":\"forbidden\"\x7d") "a1").1
      = ToolResult.text "\x7b\"error\":\"forbidden\"\x7d"
    ∧ (apollo_view_account (some "key") none
        (.responds 403 "\x7b\"error\":\"forbidden\"\x7d") "a1").1
      ≠ ToolResult.errorDict "HTTP error 403: \x7b\"error\":\"forbidden\"\x7d" :=
  ⟨rfl, fun hcontra => ToolResult.noConfusion hcontra⟩

/-- C6 (amended): tools that call `raise_for_status` (`apollo_create_account`,
`apollo_organisation_enrichment`, ...) do return the structured
`HTTP error status: body` / `Request failed: ...` error values; but
`apollo_view_account` and `apollo_update_account_stage_bulk` never call
`raise_for_status` — they return the raw body as a success value for every
status and collapse any exception into a single generic
`\x7b"error": str(e)\x7d`; the three-way taxonomy is not preserved by every
tool. -/
theorem c6_amended_error_taxonomy (ctx env : Option String) (status : Nat)
    (body domain acc msg : String) (ids sid : Json)
    (hs : is2xx status = false) :
    (apollo_organisation_enrichment ctx env (.responds status body) domain).1
      = ToolResult.errorDict ("HTTP error " ++ toString status ++ ": " ++ body)
    ∧ (apollo_organisation_enrichment ctx env (.netFail msg) domain).1
      = ToolResult.errorDict ("Request failed: " ++ msg)
    ∧ (apollo_create_account ctx env (.responds status body)
        (some "Acme") none none none none none).1
      = ToolResult.errorDict ("HTTP error " ++ toString status ++ ": " ++ body)
    ∧ (apollo_view_account ctx env (.responds status body) acc).1 = ToolResult.text body
    ∧ (apollo_view_account ctx env (.netFail msg) acc).1 = ToolResult.errorDict msg
    ∧ (apollo_update_account_stage_bulk ctx env (.responds status body) ids sid).1
      = ToolResult.text body
    ∧ (apollo_update_account_stage_bulk ctx env (.netFail msg) ids sid).1
      = ToolResult.errorDict msg := by
  refine ⟨?_, rfl, ?_, rfl, rfl, rfl, rfl⟩
  · simp [apollo_organisation_enrichment, hs]
  · simp [apollo_create_account, hs]

/-- Witness for C6 (amended): the spec's own example, HTTP 403 with body
`\x7b"error":"forbidden"\x7d`. -/
theorem c6_amended_error_taxonomy_witness :
    is2xx 403 = false
    ∧ (apollo_create_account (some "key") none
        (.responds 403 "\x7b\"error\":\"forbidden\"\x7d")
        (some "Acme") none none none none none).1
      = ToolResult.errorDict ("HTTP error " ++ toString 403 ++ ": " ++ "\x7b\"error\":\"forbidden\"\x7d")
    ∧ (apollo_view_account (some "key") none
        (.responds 403 "\x7b\"error\":\"forbidden\"\x7d") "a1").1
      = ToolResult.text "\x7b\"error\":\"forbidden\"\x7d" :=
  ⟨rfl,
   (c6_amended_error_taxonomy (some "key") none 403 "\x7b\"error\":\"forbidden\"\x7d"
      "d" "a1" "boom" Json.null Json.null rfl).2.2.1,
   (c6_amended_error_taxonomy (some "key") none 403 "\x7b\"error\":\"forbidden\"\x7d"
      "d" "a1" "boom" Json.null Json.null rfl).2.2.2.1⟩

/-- C7 counterexample: `apollo_view_account` returns `response.text` (a
string), and the dispatcher branch applies `json.dumps` to that string, so
the result text is a JSON *string literal*; parsing the result text once
yields the raw body string, which is not structurally equal to the upstream
JSON object. -/
theorem c7_counterexample :
    (call_tool (fun _ => .value ((apollo_view_account (some "key") none
          (.responds 200 "\x7b\"a\": 1\x7d") "a1").1))
        "apollo_view_account" [("account_id", Json.str "a1")]).1
      = some [⟨"\"\x7b\\\"a\\\": 1\x7d\""⟩]
    ∧ jsonParse "\"\x7b\\\"a\\\": 1\x7d\"" = some (Json.str "\x7b\"a\": 1\x7d")
    ∧ jsonParse "\x7b\"a\": 1\x7d" = some (Json.obj [("a", Json.num 1)])
    ∧ Json.str "\x7b\"a\": 1\x7d" ≠ Json.obj [("a", Json.num 1)] :=
  ⟨rfl, rfl, rfl, fun hcontra => Json.noConfusion hcontra⟩

/-- C7 (amended): for every upstream body, the text of a successful
`apollo_view_account` invocation equals the JSON serialization of the raw
body *string* (`json.dumps(response.text)`), so one parse of the result
recovers the raw body text, not the upstream JSON value; only a second
parse recovers the value. -/
theorem c7_amended_result_serializes_body_string (ctx env : Option String)
    (status : Nat) (body acc : String) (args : Args) (o : String → AdapterOutcome)
    (harg : pyTruthy (pyGet args "account_id") = true)
    (ho : o "apollo_view_account"
        = .value ((apollo_view_account ctx env (.responds status body) acc).1)) :
    (call_tool o "apollo_view_account" args).1 = some [⟨jsonDumpString body⟩] := by
  have hv : (apollo_view_account ctx env (.responds status body) acc).1
      = ToolResult.text body := rfl
  rw [hv] at ho
  simp [call_tool, harg, runDumps, ho, pyJsonDumps, toolResultJson, pyJsonDumpsAt]

/-- Witness for C7 (amended). -/
theorem c7_amended_result_serializes_body_string_witness :
    pyTruthy (pyGet [("account_id", Json.str "a1")] "account_id") = true
    ∧ (call_tool (fun _ => .value ((apollo_view_account (some "key") none
          (.responds 200 "hello") "a1").1))
        "apollo_view_account" [("account_id", Json.str "a1")]).1
      = some [⟨jsonDumpString "hello"⟩] :=
  ⟨by decide,
   c7_amended_result_serializes_body_string (some "key") none 200 "hello" "a1"
     [("account_id", Json.str "a1")] _ (by decide) rfl⟩

/-- C8: the single upstream call of `apollo_bulk_organisation_enrichment`
carries `domains[]` equal to the input list with a leading `www` label (and
its dot) stripped from each element: concretely
`["www.acme.io","foo.com"]` becomes `["acme.io","foo.com"]`, in general the
parameter list is the `stripWww` image, `stripWww` deletes exactly a
leading `www.` prefix, and every element whose first dot-separated label is
not `www` passes through unchanged. -/
theorem c8_bulk_enrichment_strips_www (ctx env : Option String) (up : UpstreamBehavior) :
    ((apollo_bulk_organisation_enrichment ctx env up ["www.acme.io", "foo.com"]).2.map
        HttpRequest.params)
      = [[("domains[]", Json.arr [Json.str "acme.io", Json.str "foo.com"])]]
    ∧ (∀ ds : List String,
        (apollo_bulk_organisation_enrichment ctx env up ds).2.map HttpRequest.params
          = [[("domains[]", Json.arr ((ds.map stripWww).map Json.str))]])
    ∧ (∀ s : String, stripWww ("www." ++ s) = s)
    ∧ (∀ d : String,
        (splitDot d.data).head? ≠ some ('w' :: 'w' :: 'w' :: []) → stripWww d = d) := by
  have h2 : ∀ ds : List String,
      (apollo_bulk_organisation_enrichment ctx env up ds).2.map HttpRequest.params
        = [[("domains[]", Json.arr ((ds.map stripWww).map Json.str))]] := by
    intro ds
    cases up with
    | responds st body =>
      simp only [apollo_bulk_organisation_enrichment]
      split <;> rfl
    | netFail m => rfl
  have hmap : ["www.acme.io", "foo.com"].map stripWww = ["acme.io", "foo.com"] := by decide
  refine ⟨?_, h2, stripWww_www_append, stripWww_of_not_www⟩
  rw [h2, hmap]
  rfl

/-- Witness for C8. -/
theorem c8_bulk_enrichment_strips_www_witness :
    ((apollo_bulk_organisation_enrichment (some "key") none (.responds 200 "ok")
        ["www.acme.io", "foo.com"]).2.map HttpRequest.params)
      = [[("domains[]", Json.arr [Json.str "acme.io", Json.str "foo.com"])]]
    ∧ stripWww ("www." ++ "acme.io") = "acme.io"
    ∧ stripWww "foo.com" = "foo.com" :=
  ⟨(c8_bulk_enrichment_strips_www (some "key") none (.responds 200 "ok")).1,
   (c8_bulk_enrichment_strips_www (some "key") none (.responds 200 "ok")).2.2.1 "acme.io",
   (c8_bulk_enrichment_strips_www (some "key") none (.responds 200 "ok")).2.2.2 "foo.com"
     (by decide)⟩

/-- A validated `text=result` branch returns exactly one content item
whether it rejects or dispatches. -/
theorem ite_reject_runPlain_fst (b : Prop) [Decidable b] (m t : String)
    (o : String → AdapterOutcome) :
    ∃ c, (if b then rejectWith m else runPlain o t).1 = some [c] := by
  split
  · exact ⟨_, rfl⟩
  · exact runPlain_fst o t

/-- A validated `json.dumps` branch returns exactly one content item
whether it rejects or dispatches. -/
theorem ite_reject_runDumps_fst (b : Prop) [Decidable b] (m t : String)
    (o : String → AdapterOutcome) :
    ∃ c, (if b then rejectWith m else runDumps o t).1 = some [c] := by
  split
  · exact ⟨_, rfl⟩
  · exact runDumps_fst o t

/-- C4 counterexample: invoking `apollo_create_tasks` with every required
argument present but `null` is *not* rejected — the membership-only check
passes, the tool function is invoked, and one upstream HTTP call is issued
with the null parameters. -/
theorem c4_counterexample :
    (call_tool (fun _ => .value ((apollo_create_tasks (some "key") none
          (.responds 200 "true") .null .null .null .null .null .null .null).1))
        "apollo_create_tasks"
        [("user_id", Json.null), ("contact_ids", Json.null), ("priority", Json.null),
         ("due_at", Json.null), ("task_type", Json.null), ("status", Json.null)]).2
      = ["apollo_create_tasks"]
    ∧ (apollo_create_tasks (some "key") none (.responds 200 "true")
        .null .null .null .null .null .null .null).2.length = 1
    ∧ (call_tool (fun _ => .value ((apollo_create_tasks (some "key") none
          (.responds 200 "true") .null .null .null .null .null .null .null).1))
        "apollo_create_tasks"
        [("user_id", Json.null), ("contact_ids", Json.null), ("priority", Json.null),
         ("due_at", Json.null), ("task_type", Json.null), ("status", Json.null)]).1
      ≠ some [⟨missingRequiredMsg createTasksRequiredParams⟩] :=
  ⟨rfl, rfl, by decide⟩

/-- C4 (amended): branches validated by truthiness (`apollo_view_account`)
reject an absent or null required argument with no tool invocation, and the
membership-checked branches (`apollo_create_tasks`,
`apollo_add_contacts_to_sequence`) reject an *absent* required argument the
same way; but a required argument present with value `null` passes the
membership check, the tool function is invoked, and its single upstream
HTTP call is issued with the null parameters. -/
theorem c4_amended_null_required_args (o : String → AdapterOutcome) (args : Args)
    (ctx env : Option String) (up : UpstreamBehavior) :
    (pyTruthy (pyGet args "account_id") = false →
      call_tool o "apollo_view_account" args
        = (some [⟨"Missing required parameter: account_id."⟩], []))
    ∧ (requiredAllPresent args createTasksRequiredParams = false →
      call_tool o "apollo_create_tasks" args
        = (some [⟨missingRequiredMsg createTasksRequiredParams⟩], []))
    ∧ (requiredAllPresent args createTasksRequiredParams = true →
      (call_tool o "apollo_create_tasks" args).2 = ["apollo_create_tasks"])
    ∧ (requiredAllPresent args addContactsRequiredParams = false →
      call_tool o "apollo_add_contacts_to_sequence" args
        = (some [⟨missingRequiredMsg addContactsRequiredParams⟩], []))
    ∧ (requiredAllPresent args addContactsRequiredParams = true →
      (call_tool o "apollo_add_contacts_to_sequence" args).2
        = ["apollo_add_contacts_to_sequence"])
    ∧ (apollo_create_tasks ctx env up .null .null .null .null .null .null .null).2.length
        = 1 := by
  refine ⟨?_, ?_, ?_, ?_, ?_, ?_⟩
  · intro hv; simp [call_tool, hv, rejectWith]
  · intro hv; simp [call_tool, hv, rejectWith]
  · intro hv; simp [call_tool, hv, runDumps_snd]
  · intro hv; simp [call_tool, hv, rejectWith]
  · intro hv; simp [call_tool, hv, runDumps_snd]
  · cases up with
    | responds st body =>
      simp only [apollo_create_tasks]
      split <;> rfl
    | netFail m => rfl

/-- Witness for C4 (amended): one argument set missing `status`, one with
all six required arguments present as `null`. -/
theorem c4_amended_null_required_args_witness :
    call_tool (fun _ => .raises "unused") "apollo_create_tasks"
        [("user_id", Json.str "u1")]
      = (some [⟨missingRequiredMsg createTasksRequiredParams⟩], [])
    ∧ (call_tool (fun _ => .raises "unused") "apollo_create_tasks"
        [("user_id", Json.null), ("contact_ids", Json.null), ("priority", Json.null),
         ("due_at", Json.null), ("task_type", Json.null), ("status", Json.null)]).2
      = ["apollo_create_tasks"]
    ∧ pyTruthy (pyGet [] "account_id") = false
    ∧ call_tool (fun _ => .raises "unused") "apollo_view_account" []
      = (some [⟨"Missing required parameter: account_id."⟩], []) :=
  ⟨(c4_amended_null_required_args (fun _ => .raises "unused") [("user_id", Json.str "u1")]
      none none (.netFail "x")).2.1 (by decide),
   (c4_amended_null_required_args (fun _ => .raises "unused")
      [("user_id", Json.null), ("contact_ids", Json.null), ("priority", Json.null),
       ("due_at", Json.null), ("task_type", Json.null), ("status", Json.null)]
      none none (.netFail "x")).2.2.1 (by decide),
   by decide,
   (c4_amended_null_required_args (fun _ => .raises "unused") [] none none
      (.netFail "x")).1 (by decide)⟩

/-- C5 counterexample: an invocation whose tool name matches no registered
tool falls through every branch of `call_tool` and yields no result at all
(Python `None`) — not a one-element text content list. -/
theorem c5_counterexample :
    call_tool (fun _ => .value (ToolResult.text "ok")) "apollo_delete_account" []
      = (none, []) := rfl

/-- C5 (amended): every invocation of a *registered* tool name returns a
list containing exactly one text content item (for success, error and
rejection alike), with no network call on the rejection path; but an
unknown tool name is not reported as a TextPayload — `call_tool` falls
through every branch and returns `None` (though still without any network
call). -/
theorem c5_amended_dispatch_shape (o : String → AdapterOutcome) (name : String)
    (args : Args) :
    (name ∈ registeredToolNames → ∃ c, (call_tool o name args).1 = some [c])
    ∧ (name ∉ registeredToolNames → call_tool o name args = (none, [])) := by
  constructor
  · intro h
    simp only [registeredToolNames, List.mem_cons, List.not_mem_nil, or_false] at h
    rcases h with rfl | rfl | rfl | rfl | rfl | rfl | rfl | rfl | rfl | rfl | rfl | rfl |
      rfl | rfl | rfl | rfl | rfl | rfl | rfl | rfl | rfl | rfl | rfl | rfl | rfl | rfl |
      rfl | rfl | rfl | rfl | rfl | rfl | rfl | rfl | rfl | rfl | rfl <;>
    simp only [call_tool, String.reduceEq, reduceIte] <;>
      first
        | exact runPlain_fst o _
        | exact runDumps_fst o _
        | exact ite_reject_runPlain_fst _ _ _ o
        | exact ite_reject_runDumps_fst _ _ _ o
  · intro h
    have hn1 : name ≠ "apollo_create_account" := by
      intro hh; subst hh; exact h (by decide)
    have hn2 : name ≠ "apollo_update_account" := by
      intro hh; subst hh; exact h (by decide)
    have hn3 : name ≠ "apollo_search_accounts" := by
      intro hh; subst hh; exact h (by decide)
    have hn4 : name ≠ "apollo_view_account" := by
      intro hh; subst hh; exact h (by decide)
    have hn5 : name ≠ "apollo_update_account_stage_bulk" := by
      intro hh; subst hh; exact h (by decide)
    have hn6 : name ≠ "apollo_update_account_owner_bulk" := by
      intro hh; subst hh; exact h (by decide)
    have hn7 : name ≠ "apollo_list_account_stages" := by
      intro hh; subst hh; exact h (by decide)
    have hn8 : name ≠ "apollo_create_call_record" := by
      intro hh; subst hh; exact h (by decide)
    have hn9 : name ≠ "apollo_search_calls" := by
      intro hh; subst hh; exact h (by decide)
    have hn10 : name ≠ "apollo_update_call" := by
      intro hh; subst hh; exact h (by decide)
    have hn11 : name ≠ "apollo_create_contact" := by
      intro hh; subst hh; exact h (by decide)
    have hn12 : name ≠ "apollo_update_contact" := by
      intro hh; subst hh; exact h (by decide)
    have hn13 : name ≠ "apollo_search_contacts" := by
      intro hh; subst hh; exact h (by decide)
    have hn14 : name ≠ "apollo_update_contact_stages" := by
      intro hh; subst hh; exact h (by decide)
    have hn15 : name ≠ "apollo_update_contact_owners" := by
      intro hh; subst hh; exact h (by decide)
    have hn16 : name ≠ "apollo_list_contact_stages" := by
      intro hh; subst hh; exact h (by decide)
    have hn17 : name ≠ "apollo_create_deal" := by
      intro hh; subst hh; exact h (by decide)
    have hn18 : name ≠ "apollo_list_all_deals" := by
      intro hh; subst hh; exact h (by decide)
    have hn19 : name ≠ "apollo_view_deal" := by
      intro hh; subst hh; exact h (by decide)
    have hn20 : name ≠ "apollo_update_deal" := by
      intro hh; subst hh; exact h (by decide)
    have hn21 : name ≠ "apollo_list_deal_stages" := by
      intro hh; subst hh; exact h (by decide)
    have hn22 : name ≠ "apollo_organisation_enrichment" := by
      intro hh; subst hh; exact h (by decide)
    have hn23 : name ≠ "apollo_bulk_organisation_enrichment" := by
      intro hh; subst hh; exact h (by decide)
    have hn24 : name ≠ "apollo_view_api_usage_stats" := by
      intro hh; subst hh; exact h (by decide)
    have hn25 : name ≠ "apollo_list_users" := by
      intro hh; subst hh; exact h (by decide)
    have hn26 : name ≠ "apollo_list_email_accounts" := by
      intro hh; subst hh; exact h (by decide)
    have hn27 : name ≠ "apollo_get_all_lists_and_tags" := by
      intro hh; subst hh; exact h (by decide)
    have hn28 : name ≠ "apollo_list_all_custom_fields" := by
      intro hh; subst hh; exact h (by decide)
    have hn29 : name ≠ "apollo_organization_job_postings" := by
      intro hh; subst hh; exact h (by decide)
    have hn30 : name ≠ "apollo_news_articles_search" := by
      intro hh; subst hh; exact h (by decide)
    have hn31 : name ≠ "apollo_search_sequences" := by
      intro hh; subst hh; exact h (by decide)
    have hn32 : name ≠ "apollo_add_contacts_to_sequence" := by
      intro hh; subst hh; exact h (by decide)
    have hn33 : name ≠ "apollo_update_contact_status_in_sequence" := by
      intro hh; subst hh; exact h (by decide)
    have hn34 : name ≠ "apollo_search_outreach_emails" := by
      intro hh; subst hh; exact h (by decide)
    have hn35 : name ≠ "apollo_check_email_stats" := by
      intro hh; subst hh; exact h (by decide)
    have hn36 : name ≠ "apollo_create_tasks" := by
      intro hh; subst hh; exact h (by decide)
    have hn37 : name ≠ "apollo_search_tasks" := by
      intro hh; subst hh; exact h (by decide)
    unfold call_tool
    rw [if_neg hn1, if_neg hn2, if_neg hn3, if_neg hn4, if_neg hn5, if_neg hn6, if_neg hn7, if_neg hn8, if_neg hn9, if_neg hn10, if_neg hn11, if_neg hn12, if_neg hn13, if_neg hn14, if_neg hn15, if_neg hn16, if_neg hn17, if_neg hn18, if_neg hn19, if_neg hn20, if_neg hn21, if_neg hn22, if_neg hn23, if_neg hn24, if_neg hn25, if_neg hn26, if_neg hn27, if_neg hn28, if_neg hn29, if_neg hn30, if_neg hn31, if_neg hn32, if_neg hn33, if_neg hn34, if_neg hn35, if_neg hn36, if_neg hn37]

/-- Witness for C5 (amended): a registered name and an unknown name. -/
theorem c5_amended_dispatch_shape_witness :
    (∃ c, (call_tool (fun _ => .raises "boom") "apollo_search_tasks" []).1 = some [c])
    ∧ call_tool (fun _ => .raises "boom") "apollo_uninstall" [] = (none, []) :=
  ⟨(c5_amended_dispatch_shape (fun _ => .raises "boom") "apollo_search_tasks" []).1
      (by decide),
   (c5_amended_dispatch_shape (fun _ => .raises "boom") "apollo_uninstall" []).2
      (by decide)⟩
